import Mathlib

/-!
Shallow embedding of the generic repository/service data-access layer
(`src/models.py`, `src/repository.py`, `src/service.py`).

The document store is modelled as a list of documents (`Collection`); a
collection's natural order is the list order, so `find` preserves insertion
order, `find_one` returns the first match, and `update_one` /
`find_one_and_update` / `delete_one` act on the first matching document —
matching MongoDB semantics for the operations the code uses.

BSON scalar values are modelled by `Val`; ObjectIds and datetimes are
modelled as naturals.  A top-level document (`Doc`) carries the `DbModel`
base fields (`id`, `created_at`, `updated_at`), its flat scalar fields, and
its array fields of embedded sub-documents (`NDoc`), which is the shape the
nested-document operations of `BaseRepository` manipulate.
-/

abbrev OID := Nat

abbrev Time := Nat

inductive Val where
  | int : Int → Val
  | str : String → Val
  | oid : OID → Val
  | time : Time → Val
deriving DecidableEq, Repr

/-- An embedded (nested) array element: its `_id` plus its scalar fields. -/
structure NDoc where
  nid : OID
  nfields : List (String × Val)
deriving DecidableEq, Repr

/-- A stored top-level document, shaped like a `DbModel` subclass:
the base fields `id` (`_id`), `created_at`, `updated_at`, the remaining
scalar fields, and the array fields of embedded sub-documents. -/
structure Doc where
  id : OID
  created_at : Time
  updated_at : Option Time
  fields : List (String × Val)
  arrays : List (String × List NDoc)
deriving DecidableEq, Repr

abbrev Collection := List Doc

/-- An exact-match filter (`filter_kwargs`): field name ↦ expected value. -/
abbrev FilterKw := List (String × Val)

/-- First-binding lookup in an association list keyed by field name. -/
def alookup {α : Type} (k : String) : List (String × α) → Option α
  | [] => none
  | kv :: fs => if kv.1 = k then some kv.2 else alookup k fs

/-- MongoDB exact-match semantics of `filter_kwargs` on a document's
scalar fields: every filter entry must be present with the given value. -/
def docMatches (flt : FilterKw) (d : Doc) : Bool :=
  flt.all (fun kv => alookup kv.1 d.fields == some kv.2)

/-- MongoDB `$set` of one key on a flat sub-document: overwrite the first
binding of the key, or append the key if absent. -/
def setField : List (String × Val) → String → Val → List (String × Val)
  | [], k, v => [(k, v)]
  | kv :: fs, k, v => if kv.1 = k then (k, v) :: fs else kv :: setField fs k v

/-- Python truthiness of an `Optional[int]` argument (`None` and `0` are
falsy), as tested by `if size and page:` / `if sort:` / `if limit:`. -/
def truthy : Option Nat → Bool
  | none => false
  | some n => decide (n ≠ 0)

/-- Python-level errors raised by motor cursor misuse, surfaced to these
operations: `cursor.next()` raises `StopAsyncIteration` when the
aggregation cursor is exhausted, and iterating an un-awaited
`AsyncIOMotorCursor` synchronously raises `TypeError` (motor cursors are
only asynchronously iterable). -/
inductive PyErr where
  | stopAsyncIteration
  | typeError
deriving DecidableEq, Repr

namespace BaseRepository

/-- `collection.find(filter_kwargs)`: all matching documents, in
collection (insertion) order. -/
def find (c : Collection) (flt : FilterKw) : List Doc :=
  c.filter (docMatches flt)

/-- `collection.count_documents(filter_kwargs)`. -/
def count_documents (c : Collection) (flt : FilterKw) : Nat :=
  (find c flt).length

/-- `BaseRepository.list` (src/repository.py:17-40): counts over the full
filter, then paginates only when both `size` and `page` are truthy; page 1
takes the first `size` results, page `p > 1` skips `size * p` results
before taking `size`.  In the paginated branch `db_results` is the
awaited `to_list(...)` result, a plain list, and line 39 builds the
models from it.  In the unpaginated branch `db_results` is still the
un-awaited `AsyncIOMotorCursor` from `find`, and the synchronous
iteration `for result in db_results` at line 39 raises `TypeError`
(motor cursors are only asynchronously iterable), before any model is
produced. -/
def list (c : Collection) (size page : Option Nat) (flt : FilterKw) :
    Except PyErr (Nat × List Doc) :=
  let db_results := find c flt
  let total_count := count_documents c flt
  if truthy size && truthy page then
    let objects :=
      if page.getD 0 = 1 then db_results.take (size.getD 0)
      else (db_results.drop (size.getD 0 * page.getD 0)).take (size.getD 0)
    .ok (total_count, objects)
  else .error .typeError

/-- `BaseRepository.get` (src/repository.py:42-55):
`find_one({"_id": id_})`, returning the model or `None`; absence is a
value, not an error. -/
def get (c : Collection) (id_ : OID) : Option Doc :=
  c.find? (fun d => d.id == id_)

/-- `BaseRepository.search` with the default `many=False`
(src/repository.py:57-76): `find_one(filter_kwargs)`, first match or
`None`.  (The `many=True` branch is not exercised by any claim.) -/
def search (c : Collection) (flt : FilterKw) : Option Doc :=
  c.find? (docMatches flt)

/-- `set_except_id d m`: effect of `update_one({"_id": ...},
{"$set": model_instance.dict(exclude={"id"})})` on the matched document
`d`: every model field except the identity is overwritten from `m`. -/
def set_except_id (d m : Doc) : Doc :=
  { id := d.id
    created_at := m.created_at
    updated_at := m.updated_at
    fields := m.fields
    arrays := m.arrays }

/-- Apply `f` to the first document satisfying `p` (MongoDB `update_one`). -/
def updateFirst (p : Doc → Bool) (f : Doc → Doc) : Collection → Collection
  | [] => []
  | d :: ds => if p d then f d :: ds else d :: updateFirst p f ds

/-- `BaseRepository.update` (src/repository.py:105-120): `$set`s the full
field set (identity excluded) on the matched document, then re-reads via
`get`. -/
def update (c : Collection) (id_ : OID) (m : Doc) : Collection × Option Doc :=
  let c2 := updateFirst (fun d => d.id == id_) (fun d => set_except_id d m) c
  (c2, get c2 id_)

/-- Remove the first document satisfying `p` (MongoDB `delete_one`);
the Bool is `deleted_count > 0`. -/
def removeFirst (p : Doc → Bool) : Collection → Collection × Bool
  | [] => ([], false)
  | d :: ds =>
    if p d then (ds, true)
    else
      let r := removeFirst p ds
      (d :: r.1, r.2)

/-- `BaseRepository.delete` (src/repository.py:122-129):
`delete_one({"_id": id_})`, returning `deleted_count > 0`. -/
def delete (c : Collection) (id_ : OID) : Collection × Bool :=
  removeFirst (fun d => d.id == id_) c

end BaseRepository

namespace PaginationModel

/-- `PaginationModel.paginate` (src/models.py:29-42): the `total_pages`
computation.  (Python would raise `ZeroDivisionError` at `size = 0`; every
statement about this definition assumes `0 < size`.) -/
def paginate (total_count size : Nat) : Nat :=
  if total_count = 0 then 0
  else if total_count ≤ size then 1
  else if total_count % size = 0 then total_count / size
  else total_count / size + 1

end PaginationModel

namespace BaseService

/-- The domain errors `BaseService` raises (src/exceptions.py):
`NotFoundException` and `BadRequest`.  `attributeError` models the Python
`AttributeError` that `db_result.dict()` would raise if the repository
re-read after an update returned `None`. -/
inductive Err where
  | notFound
  | badRequest
  | attributeError
deriving DecidableEq, Repr

/-- A pydantic update payload (`update_instance`): `attrs` is the
`getattr` view (every declared attribute with its current value, as used
by the uniqueness filter), while `created_at` / `updated_at` / `setFields`
form the `dict(exclude_unset=True)` view used to rebuild the model
(`none` meaning the field is not explicitly set). -/
structure UpdatePayload where
  created_at : Option Time
  updated_at : Option (Option Time)
  setFields : List (String × Val)
  attrs : List (String × Val)
deriving DecidableEq, Repr

/-- `self.model_klass(**update_instance.dict(exclude_unset=True))`
(src/service.py:150) evaluated at time `now`: unset model fields take
their pydantic defaults — a fresh ObjectId (`freshId`) for `id`,
`datetime.utcnow()` (that is, `now`) for `created_at`, `None` for
`updated_at`, and the subclass defaults (`defaults`) for the remaining
scalar fields; array fields take their (empty) defaults. -/
def build_model (now : Time) (freshId : OID) (defaults : FilterKw)
    (upd : UpdatePayload) : Doc :=
  { id := freshId
    created_at := upd.created_at.getD now
    updated_at := upd.updated_at.getD none
    fields := upd.setFields.foldl (fun fs kv => setField fs kv.1 kv.2) defaults
    arrays := [] }

/-- The uniqueness filter of `BaseService.update` (src/service.py:140-144):
one entry per declared unique field that exists as an attribute of the
payload, valued by `getattr`. -/
def unique_filter (unique_fields : List String) (upd : UpdatePayload) :
    FilterKw :=
  unique_fields.filterMap (fun k => (alookup k upd.attrs).map (fun v => (k, v)))

/-- `BaseService.get` (src/service.py:42-58): raises `NotFoundException`
when the repository returns `None`. -/
def get (c : Collection) (id_ : OID) : Except Err Doc :=
  match BaseRepository.get c id_ with
  | none => .error .notFound
  | some d => .ok d

/-- `BaseService.search` with the default `many=False`
(src/service.py:60-83): raises `NotFoundException` when the repository
search returns `None`. -/
def search (c : Collection) (flt : FilterKw) : Except Err Doc :=
  match BaseRepository.search c flt with
  | none => .error .notFound
  | some d => .ok d

/-- `BaseService.update` (src/service.py:124-153): the not-found check,
then — when `unique_fields` is non-empty — the guard
`if not (searched_object and searched_object.id == id_): raise BadRequest`,
then the model rebuild and delegation to `BaseRepository.update`. -/
def update (now : Time) (freshId : OID) (defaults : FilterKw)
    (unique_fields : List String) (c : Collection) (id_ : OID)
    (upd : UpdatePayload) : Except Err (Collection × Doc) :=
  if (BaseRepository.get c id_).isNone then .error .notFound
  else
    let ok :=
      if unique_fields.isEmpty then true
      else
        match BaseRepository.search c (unique_filter unique_fields upd) with
        | some d => d.id == id_
        | none => false
    if ok then
      match BaseRepository.update c id_ (build_model now freshId defaults upd) with
      | (c2, some d) => .ok (c2, d)
      | (_, none) => .error .attributeError
    else .error .badRequest

/-- `BaseService.delete` (src/service.py:155-163).  After the not-found
check the method executes `await self.delete(id_)` — it calls itself, not
`self.repository.delete` — so the recursion is modelled with explicit
fuel: `none` means the call has not returned within `fuel` recursive
steps. -/
def delete : Nat → Collection → OID → Option (Except Err Unit)
  | 0, _, _ => none
  | fuel + 1, c, id_ =>
    if (BaseRepository.get c id_).isNone then some (.error .notFound)
    else delete fuel c id_

end BaseService

/-- `await self.collection.aggregate(pipeline).next()`: the first result
document, or the raised `StopAsyncIteration` when there is none.  The
subsequent `if result is None:` branches in the Python code are
unreachable, because `next()` never returns `None`. -/
def aggregateNext {α : Type} : List α → Except PyErr α
  | [] => .error .stopAsyncIteration
  | r :: _ => .ok r

namespace BaseRepository

/-- The array field named `field` of a document, if present. -/
def lookupArr (d : Doc) (field : String) : Option (List NDoc) :=
  alookup field d.arrays

/-- The filter clause `{f"{field}._id": nested_doc_id}`: MongoDB matches a
document whose array `field` contains an element with that `_id`. -/
def hasNested (field : String) (nid : OID) (d : Doc) : Bool :=
  match lookupArr d field with
  | some es => es.any (fun e => e.nid == nid)
  | none => false

/-- The combined filter `{"_id": main_doc_id, **filter_,
f"{field}._id": nested_doc_id}` used by `nested_update` and
`nested_remove` (the extra `filter_` entries constrain scalar fields). -/
def nestedFilter (main : OID) (flt : FilterKw) (field : String) (nid : OID)
    (d : Doc) : Bool :=
  d.id == main && docMatches flt d && hasNested field nid d

/-- MongoDB `find_one_and_update` with `ReturnDocument.AFTER`: apply `f`
to the first document satisfying `p`, returning the post-update document
(or `none` when nothing matched) together with the new collection. -/
def find_one_and_update (p : Doc → Bool) (f : Doc → Doc) :
    Collection → Option Doc × Collection
  | [] => (none, [])
  | d :: ds =>
    if p d then (some (f d), f d :: ds)
    else
      let r := find_one_and_update p f ds
      (r.1, d :: r.2)

/-- MongoDB `{"$pull": {field: {"_id": nid}}}` on one document: every
element of the array `field` whose `_id` equals `nid` is removed. -/
def pullNested (field : String) (nid : OID) (d : Doc) : Doc :=
  { d with arrays := d.arrays.map (fun fe =>
      if fe.1 = field then (fe.1, fe.2.filter (fun e => e.nid != nid)) else fe) }

/-- `BaseRepository.nested_remove` (src/repository.py:327-358):
`find_one_and_update` with the `$pull`, then `return removed_doc is None`
— the Bool returned is literally "the matched document was absent". -/
def nested_remove (c : Collection) (main nid : OID) (flt : FilterKw)
    (field : String) : Bool × Collection :=
  let r := find_one_and_update (nestedFilter main flt field nid)
    (pullNested field nid) c
  (r.1.isNone, r.2)

/-- `{"$set": {f"{field}.$.{k}": v for k, v in update.items()}}` applied
to one array element: each update key overwrites (or adds) that field of
the element. -/
def setNFields (upd : List (String × Val)) (e : NDoc) : NDoc :=
  { e with nfields := upd.foldl (fun fs kv => setField fs kv.1 kv.2) e.nfields }

/-- Positional-match (`$`) targeting: apply `f` to the first array element
whose `_id` equals `nid`, leaving every other element unchanged. -/
def updateFirstN (nid : OID) (f : NDoc → NDoc) : List NDoc → List NDoc
  | [] => []
  | e :: es => if e.nid == nid then f e :: es else e :: updateFirstN nid f es

/-- The document-level effect of the positional `$set` of
`nested_update`: within the array `field`, only the first element whose
`_id` equals `nid` is rewritten. -/
def posSet (field : String) (nid : OID) (upd : List (String × Val))
    (d : Doc) : Doc :=
  { d with arrays := d.arrays.map (fun fe =>
      if fe.1 = field then (fe.1, updateFirstN nid (setNFields upd) fe.2)
      else fe) }

/-- `BaseRepository.nested_update` (src/repository.py:277-325) with the
default `upsert=False` (no claim exercises `upsert=True`):
`find_one_and_update` with the positional `$set`, then extraction of the
element with the nested id from the returned document. -/
def nested_update (c : Collection) (main nid : OID) (field : String)
    (upd : List (String × Val)) (flt : FilterKw) :
    Option NDoc × Collection :=
  let r := find_one_and_update (nestedFilter main flt field nid)
    (posSet field nid upd) c
  match r.1 with
  | none => (none, r.2)
  | some d => (((lookupArr d field).getD []).find? (fun e => e.nid == nid), r.2)

/-- Pipeline stage `{"$match": {"_id": main_doc_id}}`. -/
def matchStage (c : Collection) (main : OID) : List Doc :=
  c.filter (fun d => d.id == main)

/-- Pipeline stage `{"$unwind": f"${field}"}`: one pseudo-document
(parent, element) per array element; parents without the field or with an
empty array produce nothing. -/
def unwindStage (field : String) (ds : List Doc) : List (Doc × NDoc) :=
  ds.flatMap (fun d => ((lookupArr d field).getD []).map (fun e => (d, e)))

/-- BSON type rank for cross-type comparison of our `Val` universe. -/
def valRank : Val → Nat
  | .int _ => 0
  | .str _ => 1
  | .oid _ => 2
  | .time _ => 3

/-- Total comparison of scalar values, BSON-style: by type rank, then by
value within a type. -/
def valCmp : Val → Val → Ordering
  | .int a, .int b => compare a b
  | .str a, .str b => compare a b
  | .oid a, .oid b => compare a b
  | .time a, .time b => compare a b
  | a, b => compare (valRank a) (valRank b)

/-- MongoDB sorts missing values before present ones. -/
def optValCmp : Option Val → Option Val → Ordering
  | none, none => .eq
  | none, some _ => .lt
  | some _, none => .gt
  | some a, some b => valCmp a b

/-- Resolution of a `$sort` key path on an unwound pseudo-document:
`field._id` and `field.sub` reach into the unwound element, `_id` and
other keys reach the parent document's scalar fields. -/
def pathLookup (field : String) (p : Doc × NDoc) (key : String) :
    Option Val :=
  if key = field ++ "._id" then some (Val.oid p.2.nid)
  else if key.startsWith (field ++ ".") then
    alookup (key.drop (field.length + 1)) p.2.nfields
  else if key = "_id" then some (Val.oid p.1.id)
  else alookup key p.1.fields

/-- Lexicographic multi-key comparison for `{"$sort": {k: v, ...}}`;
a negative direction reverses that key's order. -/
def sortKeyCmp (field : String) :
    List (String × Int) → Doc × NDoc → Doc × NDoc → Ordering
  | [], _, _ => .eq
  | (k, dir) :: rest, a, b =>
    let c := optValCmp (pathLookup field a k) (pathLookup field b k)
    let c2 := if dir < 0 then c.swap else c
    match c2 with
    | .eq => sortKeyCmp field rest a b
    | o => o

/-- Stable insertion into a sorted list. -/
def insertSorted {α : Type} (le : α → α → Bool) (x : α) : List α → List α
  | [] => [x]
  | y :: ys => if le x y then x :: y :: ys else y :: insertSorted le x ys

/-- Stable insertion sort, the model of the `$sort` stage. -/
def insertionSort {α : Type} (le : α → α → Bool) : List α → List α
  | [] => []
  | x :: xs => insertSorted le x (insertionSort le xs)

/-- The optional `$sort` stage of `nested_list`; the stage is only
appended when `sort` is truthy (`None` and `[]` are falsy). -/
def sortStage (field : String) (sort : Option (List (String × Int)))
    (ps : List (Doc × NDoc)) : List (Doc × NDoc) :=
  match sort with
  | none => ps
  | some [] => ps
  | some ks =>
    insertionSort (fun a b => decide (sortKeyCmp field ks a b ≠ Ordering.gt)) ps

/-- The optional `$limit` stage of `nested_list`; only appended when
`limit` is truthy (`None` and `0` are falsy). -/
def limitStage (limit : Option Nat) (ps : List (Doc × NDoc)) :
    List (Doc × NDoc) :=
  match limit with
  | none => ps
  | some 0 => ps
  | some n => ps.take n

/-- Group keys in first-occurrence order. -/
def dedup : List OID → List OID
  | [] => []
  | x :: xs => x :: (dedup xs).filter (fun y => y != x)

/-- Pipeline stage `{"$group": {"_id": "$_id", "count": {"$sum": 1},
field: {"$push": f"${field}"}}}`: one output document per parent id with
the element count and the regrouped elements. -/
def groupStage (ps : List (Doc × NDoc)) : List (OID × Nat × List NDoc) :=
  (dedup (ps.map (fun p => p.1.id))).map (fun k =>
    (k, (ps.filter (fun p => p.1.id == k)).length,
      (ps.filter (fun p => p.1.id == k)).map (fun p => p.2)))

/-- `BaseRepository.nested_list` (src/repository.py:131-176): match,
unwind, optional sort, optional limit, group, then `cursor.next()`.  The
`if result is None: return []` branch is unreachable: an empty pipeline
makes `next()` raise `StopAsyncIteration` instead. -/
def nested_list (c : Collection) (main : OID) (field : String)
    (sort : Option (List (String × Int))) (limit : Option Nat) :
    Except PyErr (List NDoc) :=
  match aggregateNext (groupStage (limitStage limit
      (sortStage field sort (unwindStage field (matchStage c main))))) with
  | .error e => .error e
  | .ok g => .ok g.2.2

/-- `BaseRepository.nested_count` (src/repository.py:178-200): match,
unwind, group with count, then `cursor.next()`.  The
`if result is None: return 0` branch is likewise unreachable. -/
def nested_count (c : Collection) (main : OID) (field : String) :
    Except PyErr Nat :=
  match aggregateNext (groupStage (unwindStage field (matchStage c main))) with
  | .error e => .error e
  | .ok g => .ok g.2.1

end BaseRepository

/-! Sample documents used by the concrete witnesses below. -/

def dA : Doc :=
  { id := 1, created_at := 0, updated_at := none
    fields := [("status", Val.str "open")], arrays := [] }

def dB : Doc :=
  { id := 2, created_at := 0, updated_at := none
    fields := [("status", Val.str "open")], arrays := [] }

def dC : Doc :=
  { id := 3, created_at := 0, updated_at := none
    fields := [("status", Val.str "closed")], arrays := [] }

/-- A document created at time 10 (for the creation-timestamp claim). -/
def dCreated10 : Doc :=
  { id := 1, created_at := 10, updated_at := none, fields := [], arrays := [] }

/-- The same document as stored after `BaseService.update` at time 20. -/
def dCreated10after : Doc :=
  { id := 1, created_at := 20, updated_at := none, fields := [], arrays := [] }

/-- An update payload that sets nothing at all. -/
def payload_unset : BaseService.UpdatePayload :=
  { created_at := none, updated_at := none, setFields := [], attrs := [] }

/-- A record holding the unique value `email = "a@x.com"`. -/
def dEmailA : Doc :=
  { id := 1, created_at := 0, updated_at := none
    fields := [("email", Val.str "a@x.com")], arrays := [] }

/-- An update payload carrying the fresh unique value `email = "b@x.com"`. -/
def payload_emailB : BaseService.UpdatePayload :=
  { created_at := none, updated_at := none
    setFields := [("email", Val.str "b@x.com")]
    attrs := [("email", Val.str "b@x.com")] }

/-- A nested element with identity 2 and two scalar fields. -/
def nA : NDoc := { nid := 2, nfields := [("a", Val.int 1), ("b", Val.int 2)] }

/-- A sibling nested element with identity 3. -/
def nB : NDoc := { nid := 3, nfields := [("a", Val.int 7)] }

/-- A parent document with a two-element `items` array and an empty
`tags` array. -/
def dParent : Doc :=
  { id := 1, created_at := 0, updated_at := none
    fields := [("kind", Val.str "parent")]
    arrays := [("items", [nA, nB]), ("tags", [])] }

/-- `dParent` after the element with identity 2 is pulled from `items`. -/
def dParentPulled : Doc :=
  { dParent with arrays := [("items", [nB]), ("tags", [])] }

/-- A parent document whose `items` array is empty: `$unwind` yields no
pseudo-documents for it. -/
def dNoItems : Doc :=
  { id := 1, created_at := 0, updated_at := none
    fields := [], arrays := [("items", [])] }

/-! ## Claims about top-level listing and pagination -/

/-- Helper: for `0 < tc` the Python branching
`tc ≤ size → 1, size ∣ tc → tc / size, else tc / size + 1` is exactly the
ceiling division `(tc + size - 1) / size`. -/
theorem paginate_eq_ceil (total_count size : Nat) (hs : 0 < size)
    (h0 : 0 < total_count) :
    PaginationModel.paginate total_count size
      = (total_count + size - 1) / size := by
  obtain ⟨q, r, hr, rfl⟩ : ∃ q r, r < size ∧ total_count = size * q + r :=
    ⟨total_count / size, total_count % size, Nat.mod_lt _ hs,
      (Nat.div_add_mod total_count size).symm⟩
  have hmod : (size * q + r) % size = r := by
    rw [Nat.mul_add_mod]; exact Nat.mod_eq_of_lt hr
  have hdiv : (size * q + r) / size = q := by
    rw [Nat.mul_add_div hs, Nat.div_eq_of_lt hr]
    omega
  unfold PaginationModel.paginate
  rcases Nat.eq_zero_or_pos r with hr0 | hr0
  · subst hr0
    have hq : 0 < q := by
      rcases Nat.eq_zero_or_pos q with h | h
      · subst h; omega
      · exact h
    have hrhs : (size * q + 0 + size - 1) / size = q := by
      have h1 : size * q + 0 + size - 1 = size * q + (size - 1) := by omega
      rw [h1, Nat.mul_add_div hs, Nat.div_eq_of_lt (by omega)]
      omega
    rw [hrhs, if_neg (by omega), hmod, hdiv, if_pos rfl]
    rcases Nat.lt_or_ge size (size * q + 0) with hgt | hle
    · rw [if_neg (by omega)]
    · -- total_count ≤ size together with 0 < total_count forces q = 1
      have hq1 : q = 1 := by
        rcases Nat.lt_or_ge q 2 with h2 | h2
        · omega
        · exfalso
          have : size * 2 ≤ size * q := Nat.mul_le_mul_left size h2
          omega
      subst hq1
      rw [if_pos (by omega)]
  · have hrhs : (size * q + r + size - 1) / size = q + 1 := by
      have h1 : size * q + r + size - 1 = size * q + (r + size - 1) := by omega
      have h2 : (r + size - 1) / size = 1 :=
        Nat.div_eq_of_lt_le (by omega) (by omega)
      rw [h1, Nat.mul_add_div hs, h2]
    rw [hrhs, if_neg (by omega), hmod, hdiv]
    rcases Nat.lt_or_ge size (size * q + r) with hgt | hle
    · rw [if_neg (by omega), if_neg (by omega)]
    · -- total_count ≤ size forces q = 0, so the ceiling is also 1
      have hq0 : q = 0 := by
        rcases Nat.eq_zero_or_pos q with h | h
        · exact h
        · exfalso
          have : size * 1 ≤ size * q := Nat.mul_le_mul_left size h
          omega
      subst hq0
      rw [if_pos (by omega)]

/-- C2: for `size > 0`, `total_pages` is `0` at `total_count = 0`, `1` for
`0 < total_count ≤ size` (so `total_count = size` gives exactly one page),
and `⌈total_count / size⌉ = (total_count + size - 1) / size` otherwise. -/
theorem C2_total_pages (total_count size : Nat) (hs : 0 < size) :
    (total_count = 0 → PaginationModel.paginate total_count size = 0) ∧
    (0 < total_count → total_count ≤ size →
      PaginationModel.paginate total_count size = 1) ∧
    (0 < total_count →
      PaginationModel.paginate total_count size
        = (total_count + size - 1) / size) := by
  refine ⟨fun h0 => ?_, fun h0 hle => ?_, fun h0 => ?_⟩
  · unfold PaginationModel.paginate; rw [if_pos h0]
  · unfold PaginationModel.paginate
    rw [if_neg (by omega), if_pos hle]
  · exact paginate_eq_ceil total_count size hs h0

/-- C2 witness: concrete evaluations at `total_count = 5, size = 5`
(the `total_count = size` boundary) through the theorem itself. -/
theorem C2_total_pages_witness :
    0 < 5 ∧
    ((5 = 0 → PaginationModel.paginate 5 5 = 0) ∧
      (0 < 5 → 5 ≤ 5 → PaginationModel.paginate 5 5 = 1) ∧
      (0 < 5 → PaginationModel.paginate 5 5 = (5 + 5 - 1) / 5)) :=
  ⟨by decide, C2_total_pages 5 5 (by decide)⟩

/-- C1: for every filter, `size > 0` and `page > 0`, `BaseRepository.list`
succeeds and returns as total count the number of documents matching the
filter (independent of `size` and `page`); page 1 returns the first
`size` matches, and page `p > 1` skips `size * p` matches before taking
the next `size`. -/
theorem C1_list_pagination (c : Collection) (flt : FilterKw)
    (size page : Nat) (hs : 0 < size) (hp : 0 < page) :
    ∃ res, BaseRepository.list c (some size) (some page) flt
        = Except.ok res ∧
      res.1 = (BaseRepository.find c flt).length ∧
      (page = 1 → res.2 = (BaseRepository.find c flt).take size) ∧
      (1 < page →
        res.2 = ((BaseRepository.find c flt).drop (size * page)).take size) := by
  have hts : truthy (some size) = true := by
    simp [truthy]; omega
  have htp : truthy (some page) = true := by
    simp [truthy]; omega
  by_cases h1 : page = 1
  · subst h1
    refine ⟨((BaseRepository.find c flt).length,
      (BaseRepository.find c flt).take size), ?_, rfl, fun _ => rfl,
      fun h => absurd h (by omega)⟩
    simp [BaseRepository.list, hts, htp, BaseRepository.count_documents]
  · refine ⟨((BaseRepository.find c flt).length,
      ((BaseRepository.find c flt).drop (size * page)).take size), ?_, rfl,
      fun h => absurd h h1, fun _ => rfl⟩
    simp only [BaseRepository.list, hts, htp, Bool.and_self, if_true,
      Option.getD_some, BaseRepository.count_documents]
    rw [if_neg h1]

/-- C1 witness: three matching documents, `size = 1`, `page = 2`: the
total count is 3 while the returned page is the single document at index
`size * page = 2`. -/
theorem C1_list_pagination_witness :
    0 < 1 ∧ 0 < 2 ∧
    (∃ res, BaseRepository.list [dA, dB, dC] (some 1) (some 2) []
        = Except.ok res ∧
      res.1 = (BaseRepository.find [dA, dB, dC] []).length ∧
      (2 = 1 → res.2 = (BaseRepository.find [dA, dB, dC] []).take 1) ∧
      (1 < 2 →
        res.2 = ((BaseRepository.find [dA, dB, dC] []).drop (1 * 2)).take 1)) :=
  ⟨by decide, by decide, C1_list_pagination [dA, dB, dC] [] 1 2 (by decide) (by decide)⟩

/-- C10, code evaluated at the failing inputs: when `size` or `page` is
`None` or `0`, pagination is skipped but `db_results` is then still the
un-awaited motor cursor, and the list comprehension at repository.py:39
iterates it synchronously, raising `TypeError` — the caller receives an
exception, never the full sequence of matches the claim describes. -/
theorem C10_list_unpaginated_raises :
    BaseRepository.list [dA, dB, dC] (some 2) (some 0) []
      = Except.error PyErr.typeError ∧
    BaseRepository.list [dA, dB, dC] (some 0) (some 1) []
      = Except.error PyErr.typeError ∧
    BaseRepository.list [dA, dB, dC] none none []
      = Except.error PyErr.typeError :=
  ⟨rfl, rfl, rfl⟩

/-! ## Claims about the service layer -/

/-- C7: when no document has the requested id, `BaseRepository.get`
returns `none` — absence is an `Option` value, the repository raises
nothing — while `BaseService.get` on the same id raises
`NotFoundException`; likewise `BaseService.search` raises
`NotFoundException` exactly when the repository search returns `none`. -/
theorem C7_absence (c : Collection) (id_ : OID) (flt : FilterKw)
    (hid : ∀ d ∈ c, d.id ≠ id_)
    (hflt : ∀ d ∈ c, docMatches flt d = false) :
    BaseRepository.get c id_ = none ∧
    BaseService.get c id_ = Except.error BaseService.Err.notFound ∧
    BaseRepository.search c flt = none ∧
    BaseService.search c flt = Except.error BaseService.Err.notFound := by
  have h1 : BaseRepository.get c id_ = none := by
    rw [BaseRepository.get, List.find?_eq_none]
    intro d hd
    simpa using hid d hd
  have h2 : BaseRepository.search c flt = none := by
    rw [BaseRepository.search, List.find?_eq_none]
    intro d hd
    simp [hflt d hd]
  refine ⟨h1, ?_, h2, ?_⟩
  · simp [BaseService.get, h1]
  · simp [BaseService.search, h2]

/-- C7 witness: a one-document store, a foreign id and a filter value no
document carries. -/
theorem C7_absence_witness :
    (∀ d ∈ [dA], d.id ≠ 99) ∧
    (∀ d ∈ [dA], docMatches [("status", Val.str "missing")] d = false) ∧
    (BaseRepository.get [dA] 99 = none ∧
      BaseService.get [dA] 99 = Except.error BaseService.Err.notFound ∧
      BaseRepository.search [dA] [("status", Val.str "missing")] = none ∧
      BaseService.search [dA] [("status", Val.str "missing")]
        = Except.error BaseService.Err.notFound) :=
  ⟨by decide, by decide,
    C7_absence [dA] 99 [("status", Val.str "missing")] (by decide) (by decide)⟩

/-- C3, code evaluated at the failing input: a document created at time 10
is updated at time 20 by `BaseService.update` with a payload that leaves
`created_at` unset.  The update succeeds and the stored `created_at`
becomes 20: the rebuilt model's `datetime.utcnow` default is `$set` over
the original creation timestamp, contradicting the invariant that the
creation timestamp never changes. -/
theorem C3_created_at_overwritten :
    dCreated10.created_at = 10 ∧
    BaseService.update 20 99 [] [] [dCreated10] 1 payload_unset
      = Except.ok ([dCreated10after], dCreated10after) ∧
    dCreated10after.created_at = 20 :=
  ⟨rfl, rfl, rfl⟩

/-- C4, code evaluated at the failing input: on a store that does contain
the requested id, `BaseService.delete` never returns for any recursion
budget — line 163 reads `await self.delete(id_)`, so the method calls
itself and `BaseRepository.delete` is never reached; on a store without
the id it does raise `NotFoundException` as claimed. -/
theorem C4_delete_diverges :
    (∀ fuel, BaseService.delete fuel [dA] 1 = none) ∧
    (∀ fuel, BaseService.delete (fuel + 1) [] 1
        = some (Except.error BaseService.Err.notFound)) := by
  constructor
  · intro fuel
    induction fuel with
    | zero => rfl
    | succ n ih =>
      have hstep : BaseService.delete (n + 1) [dA] 1
          = BaseService.delete n [dA] 1 := rfl
      rw [hstep, ih]
  · intro fuel
    rfl

/-- C5, code evaluated at the failing input: the store's only record is
the update target itself, and the payload carries the unique value
`email = "b@x.com"` that matches no record at all; yet `BaseService.update`
raises `BadRequest`, because
`if not (searched_object and searched_object.id == id_)` also fires when
the uniqueness search returns `None`. -/
theorem C5_update_unique_no_match :
    BaseRepository.search [dEmailA]
        (BaseService.unique_filter ["email"] payload_emailB) = none ∧
    BaseService.update 20 99 [] ["email"] [dEmailA] 1 payload_emailB
      = Except.error BaseService.Err.badRequest :=
  ⟨rfl, rfl⟩

/-! ## Claims about the nested-document operations -/

/-- C6, code evaluated at the failing input: removing the element with
identity 2 from `dParent.items` does remove it (second conjunct shows the
resulting collection), yet the returned Bool is `false`; on a store with
no matching parent, nothing is removed yet the returned Bool is `true` —
`return removed_doc is None` reports the negation of "a removal
occurred". -/
theorem C6_nested_remove_inverted :
    (BaseRepository.nested_remove [dParent] 1 2 [] "items").1 = false ∧
    (BaseRepository.nested_remove [dParent] 1 2 [] "items").2
      = [dParentPulled] ∧
    (BaseRepository.nested_remove [] 1 2 [] "items").1 = true ∧
    (BaseRepository.nested_remove [] 1 2 [] "items").2 = [] :=
  ⟨rfl, rfl, rfl, rfl⟩

/-- C9, code evaluated at the failing inputs: with no matching parent, and
likewise with a matching parent whose array field is empty, the
aggregation pipeline of `nested_list` / `nested_count` produces no
documents, so `cursor.next()` raises `StopAsyncIteration` — neither the
claimed empty sequence nor the claimed 0 is returned. -/
theorem C9_nested_empty_raises :
    BaseRepository.nested_list [] 1 "items" none none
        = Except.error PyErr.stopAsyncIteration ∧
    BaseRepository.nested_count [] 1 "items"
        = Except.error PyErr.stopAsyncIteration ∧
    BaseRepository.nested_list [dNoItems] 1 "items" none none
        = Except.error PyErr.stopAsyncIteration ∧
    BaseRepository.nested_count [dNoItems] 1 "items"
        = Except.error PyErr.stopAsyncIteration :=
  ⟨rfl, rfl, rfl, rfl⟩

/-- Looking up the rewritten key after mapping the keyed rewrite over an
association list. -/
theorem alookup_map_set {α : Type} (field : String) (g : α → α)
    (ar : List (String × α)) :
    alookup field
        (ar.map (fun fe => if fe.1 = field then (fe.1, g fe.2) else fe))
      = (alookup field ar).map g := by
  induction ar with
  | nil => rfl
  | cons fe ar ih =>
    by_cases h : fe.1 = field
    · simp [alookup, h]
    · simp [alookup, h, ih]

/-- Looking up any other key after mapping the keyed rewrite over an
association list. -/
theorem alookup_map_set_ne {α : Type} (field k : String) (hk : ¬ k = field)
    (g : α → α) (ar : List (String × α)) :
    alookup k
        (ar.map (fun fe => if fe.1 = field then (fe.1, g fe.2) else fe))
      = alookup k ar := by
  induction ar with
  | nil => rfl
  | cons fe ar ih =>
    by_cases h : fe.1 = field
    · have h2 : ¬ fe.1 = k := by
        rw [h]; intro h3; exact hk h3.symm
      have h3 : ¬ field = k := fun h4 => hk h4.symm
      simp [alookup, h, h2, h3, ih]
    · by_cases h2 : fe.1 = k <;> simp [alookup, h, h2, hk, ih]

/-- Positional targeting on a decomposed array: when no element of `es1`
matches and `e` does, only `e` is rewritten. -/
theorem updateFirstN_append (nid : OID) (f : NDoc → NDoc)
    (es1 es2 : List NDoc) (e : NDoc)
    (h1 : ∀ x ∈ es1, ¬ x.nid = nid) (he : e.nid = nid) :
    BaseRepository.updateFirstN nid f (es1 ++ e :: es2)
      = es1 ++ f e :: es2 := by
  induction es1 with
  | nil => simp [BaseRepository.updateFirstN, beq_iff_eq, he]
  | cons x es1 ih =>
    have hx : ¬ x.nid = nid := h1 x (by simp)
    have ih2 := ih (fun y hy => h1 y (by simp [hy]))
    simp [BaseRepository.updateFirstN, beq_iff_eq, hx, ih2]

/-- `$set` of one key does not disturb the other keys of a flat
sub-document. -/
theorem setField_alookup_ne (k k0 : String) (hk : ¬ k0 = k) (v : Val)
    (fs : List (String × Val)) :
    alookup k (setField fs k0 v) = alookup k fs := by
  induction fs with
  | nil => simp [setField, alookup, hk]
  | cons kv fs ih =>
    by_cases h : kv.1 = k0
    · have h2 : ¬ kv.1 = k := by rw [h]; exact hk
      simp [setField, h, alookup, hk, h2]
    · have hk2 : ¬ k = k0 := fun h3 => hk h3.symm
      by_cases h2 : kv.1 = k <;> simp [setField, h, alookup, h2, hk2, ih]

/-- A whole update mapping that does not name `k` leaves `k`'s value
untouched. -/
theorem foldl_setField_alookup_ne (k : String) (upd : List (String × Val))
    (hupd : ∀ kv ∈ upd, ¬ kv.1 = k) (fs : List (String × Val)) :
    alookup k (upd.foldl (fun fs2 kv => setField fs2 kv.1 kv.2) fs)
      = alookup k fs := by
  induction upd generalizing fs with
  | nil => rfl
  | cons kv upd ih =>
    rw [List.foldl_cons, ih (fun kv2 h => hupd kv2 (by simp [h]))]
    exact setField_alookup_ne k kv.1 (hupd kv (by simp)) kv.2 fs

/-- C8: `nested_update` on a parent whose array `field` decomposes as
`es1 ++ e :: es2` with `e` the first element of identity `nid` rewrites
only `e`: the parent's identity, timestamps, scalar fields and every
other array field are unchanged; within `field`, `es1` and `es2` are
unchanged verbatim; and the rewritten element keeps its identity and
every field the update mapping does not name. -/
theorem C8_nested_update_frame (d : Doc) (main nid : OID) (field : String)
    (upd : List (String × Val)) (flt : FilterKw)
    (es1 es2 : List NDoc) (e : NDoc)
    (hes : BaseRepository.lookupArr d field = some (es1 ++ e :: es2))
    (h1 : ∀ x ∈ es1, ¬ x.nid = nid) (he : e.nid = nid)
    (hid : d.id = main) (hflt : docMatches flt d = true) :
    ∃ d2, (BaseRepository.nested_update [d] main nid field upd flt).2 = [d2] ∧
      d2.id = d.id ∧ d2.created_at = d.created_at ∧
      d2.updated_at = d.updated_at ∧ d2.fields = d.fields ∧
      (∀ f2, ¬ f2 = field →
        BaseRepository.lookupArr d2 f2 = BaseRepository.lookupArr d f2) ∧
      BaseRepository.lookupArr d2 field
        = some (es1 ++ BaseRepository.setNFields upd e :: es2) ∧
      (BaseRepository.setNFields upd e).nid = e.nid ∧
      (∀ k, (∀ kv ∈ upd, ¬ kv.1 = k) →
        alookup k (BaseRepository.setNFields upd e).nfields
          = alookup k e.nfields) := by
  have hp : BaseRepository.nestedFilter main flt field nid d = true := by
    simp [BaseRepository.nestedFilter, BaseRepository.hasNested, hes, hid,
      hflt, beq_iff_eq, he]
  refine ⟨BaseRepository.posSet field nid upd d, ?_, rfl, rfl, rfl, rfl,
    ?_, ?_, rfl, ?_⟩
  · simp [BaseRepository.nested_update, BaseRepository.find_one_and_update, hp]
  · intro f2 hf2
    simp only [BaseRepository.lookupArr, BaseRepository.posSet]
    exact alookup_map_set_ne field f2 hf2 _ d.arrays
  · simp only [BaseRepository.lookupArr, BaseRepository.posSet]
    rw [alookup_map_set]
    have hes2 : alookup field d.arrays = some (es1 ++ e :: es2) := hes
    rw [hes2, Option.map_some']
    rw [updateFirstN_append nid _ es1 es2 e h1 he]
  · intro k hk
    simp only [BaseRepository.setNFields]
    exact foldl_setField_alookup_ne k upd hk e.nfields

/-- C8 witness: `dParent.items = [nA, nB]`; updating element 2 (`nA`)
with `{"a": 5}` leaves `nB`, `tags`, the parent scalars and `nA.b`
untouched. -/
theorem C8_nested_update_frame_witness :
    BaseRepository.lookupArr dParent "items" = some ([] ++ nA :: [nB]) ∧
    (∀ x ∈ ([] : List NDoc), ¬ x.nid = 2) ∧
    nA.nid = 2 ∧ dParent.id = 1 ∧ docMatches [] dParent = true ∧
    (∃ d2, (BaseRepository.nested_update [dParent] 1 2 "items"
        [("a", Val.int 5)] []).2 = [d2] ∧
      d2.id = dParent.id ∧ d2.created_at = dParent.created_at ∧
      d2.updated_at = dParent.updated_at ∧ d2.fields = dParent.fields ∧
      (∀ f2, ¬ f2 = "items" →
        BaseRepository.lookupArr d2 f2 = BaseRepository.lookupArr dParent f2) ∧
      BaseRepository.lookupArr d2 "items"
        = some ([] ++ BaseRepository.setNFields [("a", Val.int 5)] nA :: [nB]) ∧
      (BaseRepository.setNFields [("a", Val.int 5)] nA).nid = nA.nid ∧
      (∀ k, (∀ kv ∈ [("a", Val.int 5)], ¬ kv.1 = k) →
        alookup k (BaseRepository.setNFields [("a", Val.int 5)] nA).nfields
          = alookup k nA.nfields)) :=
  ⟨by decide, by decide, by decide, by decide, by decide,
    C8_nested_update_frame dParent 1 2 "items" [("a", Val.int 5)] [] [] [nB]
      nA (by decide) (by decide) (by decide) (by decide) (by decide)⟩
